import Mathlib

/-
Verification development for the Person Engagement App service
(SOS alerts and reminders): a shallow embedding of its data model,
field validators, persistence operations, notification dispatch and
paginated reads, together with theorems about them.

Modelling conventions:
 - Python strings are Lean `String`s; `str.split(sep)` is modelled by
   `strSplit` on the character list (separator occurrences kept,
   empty pieces kept, exactly as in Python).
 - `str.isdigit()` is modelled by `pyIsDigit` (nonempty, all digits).
 - `float(s)` is modelled by `pyFloat?`, covering optional surrounding
   whitespace, an optional sign, a decimal mantissa and an optional
   exponent, returning an exact rational.
 - `datetime` values are modelled by integers (a linear timeline, one
   unit = one second, so `timedelta(minutes=1)` is `60`); the exact,
   injective ISO-8601 codec `datetime.isoformat` / ISO parsing is
   modelled by the exact, injective decimal codec
   `isoformat` / `parseIso`, for which the round trip is proved.
 - Database tables are lists of rows in insertion order; the
   autoincrement primary key is the next integer.
 - Fallible validation is `Except String`, carrying the message of the
   first violated rule, as pydantic surfaces it.
 - The external messaging API is an oracle `net : String → String → Bool`
   mapping (destination phone, message body) to success or failure of
   the HTTP call; an unsuccessful call corresponds to a
   `requests.RequestException` being raised and caught.
-/

namespace PersonEngagement

/-- Split a character list at every character satisfying `p`, keeping
empty pieces. -/
def splitOnPred (p : Char → Bool) : List Char → List (List Char)
  | [] => [[]]
  | c :: rest =>
    match splitOnPred p rest with
    | [] => [[]]
    | g :: gs => if p c then [] :: g :: gs else (c :: g) :: gs

/-- Python `s.split(sep)` for a one-character separator: split at
every occurrence, keeping empty pieces. -/
def strSplit (sep : Char) (s : String) : List String :=
  (splitOnPred (fun c => c = sep) s.toList).map (fun l => String.mk l)

/-- Python `str.isdigit()`: nonempty and every character a digit. -/
def pyIsDigit (s : String) : Bool :=
  !s.toList.isEmpty && s.toList.all Char.isDigit

/-- Value of a big-endian digit list, so Python `int(s)` on a digit
string. -/
def digitsVal (cs : List Char) : Nat :=
  cs.foldl (fun n c => 10 * n + (c.toNat - 48)) 0

/-- Python `int(s)` for strings that satisfy `pyIsDigit`. -/
def strToNat (s : String) : Nat := digitsVal s.toList

/-- Model of Python `float(s)`: strip surrounding whitespace, optional
sign, decimal mantissa (digits, optional point, at least one digit),
optional exponent; the value is returned as an exact rational, built
as one quotient of integers so that it evaluates by reduction. -/
def pyFloat? (s : String) : Option Rat :=
  let cs := ((s.toList.dropWhile Char.isWhitespace).reverse.dropWhile
      Char.isWhitespace).reverse
  let neg := cs.head? = some '-'
  let cs := if cs.head? = some '-' ∨ cs.head? = some '+' then cs.tail else cs
  let intPart := cs.takeWhile Char.isDigit
  let cs := cs.dropWhile Char.isDigit
  let fracPart :=
    match cs with
    | '.' :: rest => rest.takeWhile Char.isDigit
    | _ => []
  let cs :=
    match cs with
    | '.' :: rest => rest.dropWhile Char.isDigit
    | other => other
  if intPart.isEmpty ∧ fracPart.isEmpty then none
  else
    let mnum : Nat := digitsVal intPart * 10 ^ fracPart.length +
      digitsVal fracPart
    let mden : Nat := 10 ^ fracPart.length
    let finish : Nat → Nat → Rat := fun num den =>
      Rat.divInt (if neg then -(num : Int) else (num : Int)) (den : Int)
    match cs with
    | [] => some (finish mnum mden)
    | e :: rest =>
      if e = 'e' ∨ e = 'E' then
        let eneg := rest.head? = some '-'
        let rest := if rest.head? = some '-' ∨ rest.head? = some '+' then
            rest.tail else rest
        let eds := rest.takeWhile Char.isDigit
        let rest2 := rest.dropWhile Char.isDigit
        if eds.isEmpty ∨ ¬rest2.isEmpty then none
        else if eneg then some (finish mnum (mden * 10 ^ digitsVal eds))
        else some (finish (mnum * 10 ^ digitsVal eds) mden)
      else none

/-- Vital information payload: SpO2, blood pressure string, pulse
(`VitalInfo` in main.py; the SpO2 float is modelled as a rational). -/
structure VitalInfo where
  spo2 : Rat
  blood_pressure : String
  pulse : Int
deriving Repr, DecidableEq

/-- The `blood_pressure` validator of `VitalInfo`: the string must
unpack on a single slash into two digit strings (Python unpacking of
`v.split("/")` into two variables raises for any other piece count,
and pydantic turns the raised ValueError into a validation error),
and both parsed integers must be positive. -/
def validate_blood_pressure (v : String) : Except String String :=
  match strSplit '/' v with
  | [systolic, diastolic] =>
    if ¬pyIsDigit systolic ∨ ¬pyIsDigit diastolic then
      Except.error ("Blood pressure should be in the format 'systolic/diastolic'")
    else if strToNat systolic ≤ 0 ∨ strToNat diastolic ≤ 0 then
      Except.error ("Blood pressure should be positive integers")
    else Except.ok v
  | _ => Except.error ("Blood pressure should be in the format 'systolic/diastolic'")

/-- Validation of a `VitalInfo` payload: only `blood_pressure` carries
a validator. -/
def VitalInfo.validate (vi : VitalInfo) : Except String VitalInfo := do
  let _ ← validate_blood_pressure vi.blood_pressure
  Except.ok vi

/-- The `gps_location` validator of `SOSRequest`: the string must split
on a comma into exactly two float-parsable parts (Python unpacking of
`map(float, v.split(","))` raises ValueError otherwise, caught by the
surrounding try), with latitude in [-90, 90] and longitude in
[-180, 180]; the in-range failure raised inside the try is re-raised
by the except clause with the format message. -/
def validate_gps_location (v : String) : Except String String :=
  match strSplit ',' v with
  | [a, b] =>
    match pyFloat? a, pyFloat? b with
    | some lat, some lon =>
      if ¬(-90 ≤ lat ∧ lat ≤ 90) ∨ ¬(-180 ≤ lon ∧ lon ≤ 180) then
        Except.error ("Invalid GPS coordinates format")
      else Except.ok v
    | _, _ => Except.error ("Invalid GPS coordinates format")
  | _ => Except.error ("Invalid GPS coordinates format")

/-- One emergency contact is well-formed when it splits on a colon into
exactly two parts and the second part is a digit string. -/
def contactOk (contact : String) : Bool :=
  let parts := strSplit ':' contact
  parts.length = 2 && pyIsDigit (parts.getD 1 "")

/-- The `emergency_contacts` validator of `SOSRequest`: every contact
in the list must be well-formed, else the first offender raises. -/
def validate_emergency_contacts (v : List String) :
    Except String (List String) :=
  if v.all contactOk then Except.ok v
  else Except.error ("Emergency contact format should be 'Name:Phone'")

/-- The `user_id` validator shared by both request models. -/
def validate_user_id (v : Int) : Except String Int :=
  if v ≤ 0 then Except.error ("User ID must be a positive integer")
  else Except.ok v

/-- The `reminder_type` validator: membership in the allowed set. -/
def validate_reminder_type (v : String) : Except String String :=
  if v = "Medication" ∨ v = "Daily Tasks" ∨ v = "Doctor Appointments" then
    Except.ok v
  else Except.error ("Invalid reminder type")

/-- Number of words of a string in the sense of Python `s.split()`:
maximal nonempty runs of non-whitespace. -/
def wordCount (s : String) : Nat :=
  ((splitOnPred Char.isWhitespace s.toList).filter (fun w => w ≠ [])).length

/-- The `reminder_text` validator: at most 50 words. -/
def validate_reminder_text (v : String) : Except String String :=
  if wordCount v > 50 then
    Except.error ("Reminder text must be within 50 words")
  else Except.ok v

/-- The `reminder_time` validator, clock passed explicitly: the first
check rejects times not in the future, the second rejects times not
strictly more than one minute (60 units) ahead. -/
def validate_reminder_time (now v : Int) : Except String Int :=
  if v ≤ now then Except.error ("Reminder time must be in the future")
  else if v ≤ now + 60 then
    Except.error ("Reminder time must be at least 1 minute ahead")
  else Except.ok v

/-- Request model for creating an SOS alert (`SOSRequest` in main.py). -/
structure SOSRequest where
  user_id : Int
  emergency_button_pressed : Bool
  emergency_contacts : List String
  gps_location : String
  vital_info : VitalInfo
deriving Repr, DecidableEq

/-- Validation of an `SOSRequest` payload: pydantic validates the
fields in declaration order, running the attached validator of each;
the first failure becomes the validation error of the request. -/
def SOSRequest.validate (r : SOSRequest) : Except String SOSRequest := do
  let _ ← validate_user_id r.user_id
  let _ ← validate_emergency_contacts r.emergency_contacts
  let _ ← validate_gps_location r.gps_location
  let _ ← r.vital_info.validate
  Except.ok r

/-- Request model for creating a reminder (`ReminderRequest` in
main.py); `reminder_time` is a datetime, modelled as an integer. -/
structure ReminderRequest where
  user_id : Int
  reminder_type : String
  reminder_text : String
  reminder_time : Int
deriving Repr, DecidableEq

/-- Validation of a `ReminderRequest` payload, in field declaration
order, against the clock value `now`. -/
def ReminderRequest.validate (now : Int) (r : ReminderRequest) :
    Except String ReminderRequest := do
  let _ ← validate_user_id r.user_id
  let _ ← validate_reminder_type r.reminder_type
  let _ ← validate_reminder_text r.reminder_text
  let _ ← validate_reminder_time now r.reminder_time
  Except.ok r

/-- Database row of the `sos_alerts` table (`SOSAlert` in main.py);
`vital_info` is stored as a JSON object with the same three fields,
modelled by the structure itself. -/
structure SOSAlert where
  id : Int
  user_id : Int
  emergency_button_pressed : Bool
  emergency_contacts : List String
  gps_location : String
  vital_info : VitalInfo
deriving Repr, DecidableEq

/-- Database row of the `reminders` table (`Reminder` in main.py);
`reminder_time` is stored as the ISO string of the datetime. -/
structure Reminder where
  id : Int
  user_id : Int
  reminder_type : String
  reminder_text : String
  reminder_time : String
deriving Repr, DecidableEq

/-- Little-endian decimal digits of a natural number, fuelled so that
the recursion is structural and evaluates by reduction. -/
def natDigitsRevGo : Nat → Nat → List Char
  | 0, _ => []
  | fuel + 1, n =>
    if n < 10 then [Char.ofNat (48 + n)]
    else Char.ofNat (48 + n % 10) :: natDigitsRevGo fuel (n / 10)

/-- Little-endian decimal digits of a natural number, as characters. -/
def natDigitsRev (n : Nat) : List Char := natDigitsRevGo (n + 1) n

/-- Decimal string of a natural number. -/
def natToString (n : Nat) : String := String.mk (natDigitsRev n).reverse

/-- Model of `datetime.isoformat`: datetimes are modelled by integers
and ISO-8601 rendering by the exact decimal rendering (both codecs are
injective and lossless, which is the substance used here). -/
def isoformat (t : Int) : String :=
  if t < 0 then "-" ++ natToString t.natAbs else natToString t.toNat

/-- Parse a nonempty digit list as a natural number. -/
def parseDigits (cs : List Char) : Option Nat :=
  if !cs.isEmpty && cs.all Char.isDigit then some (digitsVal cs) else none

/-- Model of ISO-8601 datetime parsing, inverse to `isoformat`. -/
def parseIso (s : String) : Option Int :=
  match s.toList with
  | [] => none
  | c :: rest =>
    if c = '-' then (parseDigits rest).map (fun n => -(n : Int))
    else (parseDigits (c :: rest)).map (fun n => (n : Int))

/-- The message body built by `send_sos_alert` from the stored alert. -/
def sosMessage (a : SOSAlert) : String :=
  "SOS Alert! User ID: " ++ toString a.user_id ++ "\n" ++
  "Location: " ++ a.gps_location ++ "\n" ++
  "Vital Information:\n" ++
  "  - SpO2: " ++ toString a.vital_info.spo2 ++ "\n" ++
  "  - Blood Pressure: " ++ a.vital_info.blood_pressure ++ "\n" ++
  "  - Pulse: " ++ toString a.vital_info.pulse ++ "\n"

/-- The notification fan-out loop over the contact list: for each
contact one outbound post is attempted with destination
`contact.split(":")[1]`; a failed call raises RequestException, caught
by the per-contact except clause, so iteration continues. Indexing a
contact without a colon would instead raise IndexError inside the try,
which the except clause does not catch, aborting the loop: the second
component records that crash. Returns (attempts made in order, each
with its success flag, crash flag). -/
def sendLoop (net : String → String → Bool) (msg : String) :
    List String → List (String × Bool) × Bool
  | [] => ([], false)
  | contact :: rest =>
    match (strSplit ':' contact).get? 1 with
    | none => ([], true)
    | some phone =>
      let r := sendLoop net msg rest
      ((contact, net phone msg) :: r.1, r.2)

/-- The `send_sos_alert` helper of main.py. -/
def send_sos_alert (net : String → String → Bool) (a : SOSAlert) :
    List (String × Bool) × Bool :=
  sendLoop net (sosMessage a) a.emergency_contacts

/-- The `POST /sos/` handler: validate the request (done by FastAPI
before the handler body runs), insert the row with the next id,
dispatch notifications, and answer with the stored alert. An uncaught
exception in the dispatcher fails the request. -/
def create_sos_alert (net : String → String → Bool) (sos : SOSRequest)
    (db : List SOSAlert) :
    Except String (List SOSAlert × SOSAlert × List (String × Bool)) := do
  let s ← sos.validate
  let alert : SOSAlert :=
    { id := db.length + 1
      user_id := s.user_id
      emergency_button_pressed := s.emergency_button_pressed
      emergency_contacts := s.emergency_contacts
      gps_location := s.gps_location
      vital_info := s.vital_info }
  let db := db ++ [alert]
  let r := send_sos_alert net alert
  if r.2 then Except.error ("IndexError")
  else Except.ok (db, alert, r.1)

/-- The `POST /reminders/` handler: validate against the clock `now`,
insert the row with the next id, storing the time as its ISO string,
and answer with the stored reminder. -/
def create_reminder (now : Int) (reminder : ReminderRequest)
    (db : List Reminder) : Except String (List Reminder × Reminder) := do
  let r ← reminder.validate now
  let inst : Reminder :=
    { id := db.length + 1
      user_id := r.user_id
      reminder_type := r.reminder_type
      reminder_text := r.reminder_text
      reminder_time := isoformat r.reminder_time }
  Except.ok (db ++ [inst], inst)

/-- The fields of a stored alert, shaped as the response model
`SOSRequest` (which has no id field). -/
def SOSAlert.toRequest (a : SOSAlert) : SOSRequest :=
  { user_id := a.user_id
    emergency_button_pressed := a.emergency_button_pressed
    emergency_contacts := a.emergency_contacts
    gps_location := a.gps_location
    vital_info := a.vital_info }

/-- Serialization of one stored alert through the response model
`SOSRequest`: FastAPI re-validates the row against the model, which
re-runs every field validator. -/
def rowToSOSRequest (a : SOSAlert) : Except String SOSRequest :=
  a.toRequest.validate

/-- The fields of a stored reminder, shaped as the response model
`ReminderRequest` (no id field; the stored ISO string parsed back,
defaulting for the unparsable case that serialization rejects). -/
def Reminder.toRequest (r : Reminder) : ReminderRequest :=
  { user_id := r.user_id
    reminder_type := r.reminder_type
    reminder_text := r.reminder_text
    reminder_time := (parseIso r.reminder_time).getD 0 }

/-- Serialization of one stored reminder through the response model
`ReminderRequest`: the stored ISO string must parse as a datetime and
every field validator is re-run, the time validator against the clock
at read time. -/
def rowToReminderRequest (now : Int) (r : Reminder) :
    Except String ReminderRequest :=
  match parseIso r.reminder_time with
  | none => Except.error ("invalid datetime format")
  | some t =>
    ReminderRequest.validate now
      { user_id := r.user_id
        reminder_type := r.reminder_type
        reminder_text := r.reminder_text
        reminder_time := t }

/-- The `GET /sos/` handler: `offset(skip).limit(limit)` over the rows
in storage order, then serialization of each selected row through the
response model; a serialization failure fails the whole response. -/
def read_sos_alerts (skip limit : Nat) (db : List SOSAlert) :
    Except String (List SOSRequest) :=
  ((db.drop skip).take limit).mapM rowToSOSRequest

/-- The `GET /reminders/` handler: `offset(skip).limit(limit)` over
the rows in storage order, then serialization of each selected row
through the response model against the clock `now` at read time. -/
def read_reminders (now : Int) (skip limit : Nat) (db : List Reminder) :
    Except String (List ReminderRequest) :=
  ((db.drop skip).take limit).mapM (rowToReminderRequest now)

/-- Sample vital info payload (SpO2 95.5, blood pressure 120/80,
pulse 75). -/
def sampleVital : VitalInfo :=
  { spo2 := Rat.divInt 191 2, blood_pressure := "120/80", pulse := 75 }

/-- Sample valid SOS creation request with two contacts. -/
def sampleSOS : SOSRequest :=
  { user_id := 1
    emergency_button_pressed := true
    emergency_contacts := ["Alice:111", "Bob:222"]
    gps_location := "40.712776, -74.005974"
    vital_info := sampleVital }

/-- The row stored for `sampleSOS` in an empty table. -/
def sampleAlert : SOSAlert :=
  { id := 1
    user_id := 1
    emergency_button_pressed := true
    emergency_contacts := ["Alice:111", "Bob:222"]
    gps_location := "40.712776, -74.005974"
    vital_info := sampleVital }

/-- Sample network oracle: the messaging call to phone 111 fails, any
other call succeeds. -/
def netW : String → String → Bool := fun dst _ => !(dst == "111")

/-- Sample valid reminder creation request (time 120, i.e. two minutes
past the epoch of the modelled timeline). -/
def sampleRem : ReminderRequest :=
  { user_id := 1, reminder_type := "Medication",
    reminder_text := "take pills", reminder_time := 120 }

/-- The row stored for `sampleRem` in an empty table. -/
def sampleStoredRem : Reminder :=
  { id := 1, user_id := 1, reminder_type := "Medication",
    reminder_text := "take pills", reminder_time := isoformat 120 }

/-- A stored reminder whose time (100) has already passed at read time
200. -/
def expiredRem : Reminder :=
  { id := 1, user_id := 1, reminder_type := "Medication",
    reminder_text := "take pills", reminder_time := isoformat 100 }

/-- A stored reminder whose time (400) has already passed at read time
500. -/
def lateRem : Reminder :=
  { id := 1, user_id := 1, reminder_type := "Medication",
    reminder_text := "take pills", reminder_time := isoformat 400 }

/-- Fifteen stored reminders in insertion order, all still far in the
future at read time 0. -/
def db15 : List Reminder :=
  (List.range 15).map (fun i =>
    { id := (i : Int) + 1, user_id := 1, reminder_type := "Medication",
      reminder_text := "hydrate",
      reminder_time := isoformat (1000 + (i : Int)) })

/-- Auxiliary: a 50 word reminder text. -/
def fiftyWords : String := String.intercalate " " (List.replicate 50 "w")

/-- Auxiliary: a 51 word reminder text. -/
def fiftyOneWords : String := String.intercalate " " (List.replicate 51 "w")

/-- Helper: the decimal digit character of `d < 10` has the expected
code point and is a digit. -/
theorem digitChar_toNat (d : Nat) (hd : d < 10) :
    (Char.ofNat (48 + d)).toNat = 48 + d ∧
    (Char.ofNat (48 + d)).isDigit = true := by
  interval_cases d <;> exact ⟨by decide, by decide⟩

/-- Helper: appending one digit multiplies the value by ten and adds
the digit. -/
theorem digitsVal_append_single (l : List Char) (c : Char) :
    digitsVal (l ++ [c]) = 10 * digitsVal l + (c.toNat - 48) := by
  unfold digitsVal
  rw [List.foldl_append]
  rfl

/-- Helper: the fuelled digit rendering of `n < fuel` is a nonempty
digit list whose big-endian value is `n`. -/
theorem natDigitsRevGo_spec (fuel : Nat) :
    ∀ n, n < fuel →
      digitsVal (natDigitsRevGo fuel n).reverse = n ∧
      (natDigitsRevGo fuel n) ≠ [] ∧
      (natDigitsRevGo fuel n).all Char.isDigit = true := by
  induction fuel with
  | zero => intro n hn; omega
  | succ fuel ih =>
    intro n hn
    unfold natDigitsRevGo
    split_ifs with h
    · have hc := digitChar_toNat n h
      refine ⟨?_, by simp, by simp [List.all_cons, hc.2]⟩
      simp [digitsVal, hc.1]
    · have hdiv : n / 10 < fuel := by
        have h1 : n / 10 < n := Nat.div_lt_self (by omega) (by omega)
        omega
      have hrec := ih (n / 10) hdiv
      have hc := digitChar_toNat (n % 10) (Nat.mod_lt n (by omega))
      refine ⟨?_, by simp, by simp [List.all_cons, hc.2, hrec.2.2]⟩
      rw [List.reverse_cons, digitsVal_append_single, hrec.1, hc.1]
      omega

/-- Helper: parsing the rendered digits of `n` gives back `n`. -/
theorem parseDigits_natDigitsRev (n : Nat) :
    parseDigits (natDigitsRev n).reverse = some n := by
  have hspec := natDigitsRevGo_spec (n + 1) n (by omega)
  show parseDigits (natDigitsRevGo (n + 1) n).reverse = some n
  have hne : (natDigitsRevGo (n + 1) n).reverse.isEmpty = false := by
    cases hrev : (natDigitsRevGo (n + 1) n).reverse with
    | nil => exact absurd (List.reverse_eq_nil_iff.1 hrev) hspec.2.1
    | cons c rest => rfl
  have hall : (natDigitsRevGo (n + 1) n).reverse.all Char.isDigit = true := by
    rw [List.all_reverse]
    exact hspec.2.2
  unfold parseDigits
  rw [if_pos (by rw [hne, hall]; rfl), hspec.1]

/-- Helper: every character of a rendered natural is a digit, so in
particular its leading character is. -/
theorem natDigitsRev_head_digit (n : Nat) (c : Char) (rest : List Char)
    (h : (natDigitsRev n).reverse = c :: rest) : c.isDigit = true := by
  have hspec := natDigitsRevGo_spec (n + 1) n (by omega)
  have hall : (natDigitsRev n).reverse.all Char.isDigit = true := by
    show (natDigitsRevGo (n + 1) n).reverse.all Char.isDigit = true
    rw [List.all_reverse]
    exact hspec.2.2
  rw [h, List.all_cons, Bool.and_eq_true] at hall
  exact hall.1

/-- Helper: the datetime codec round-trips exactly: parsing the stored
ISO rendering of a time recovers the time. -/
theorem parseIso_isoformat (t : Int) : parseIso (isoformat t) = some t := by
  unfold isoformat parseIso
  split_ifs with hneg
  · have htl : ("-" ++ natToString t.natAbs).toList =
        '-' :: (natDigitsRev t.natAbs).reverse := rfl
    rw [htl]
    simp only [if_pos rfl, parseDigits_natDigitsRev, Option.map_some']
    exact congrArg some (by show -(t.natAbs : Int) = t; omega)
  · have htl : (natToString t.toNat).toList =
        (natDigitsRev t.toNat).reverse := rfl
    rw [htl]
    split
    · next hrev =>
      have hspec := natDigitsRevGo_spec (t.toNat + 1) t.toNat (by omega)
      exact absurd (List.reverse_eq_nil_iff.1 hrev) hspec.2.1
    · next c rest hrev =>
      have hdig := natDigitsRev_head_digit t.toNat c rest hrev
      have hcne : ¬(c = '-') := by
        intro hc
        rw [hc] at hdig
        exact absurd hdig (by decide)
      rw [if_neg hcne, ← hrev, parseDigits_natDigitsRev]
      simp only [Option.map_some', Option.bind_some, Option.some_bind,
        Option.pure_def, Option.map_eq_map, Option.map_map]
      simp only [Option.map, Option.bind]
      exact congrArg some (by omega)

/-- Helper: a contact passes the per-contact check exactly when it
splits on a colon into a name and a digit string. -/
theorem contactOk_iff (c : String) : contactOk c = true ↔
    ∃ nm ph, strSplit ':' c = [nm, ph] ∧ pyIsDigit ph = true := by
  unfold contactOk
  rcases h : strSplit ':' c with _ | ⟨nm, _ | ⟨ph, _ | _⟩⟩ <;> simp [h]
  constructor
  · intro hp
    exact ⟨nm, ph, ⟨rfl, rfl⟩, hp⟩
  · rintro ⟨n, p, ⟨rfl, rfl⟩, hp⟩
    exact hp

/-- C3: the reminder time check rejects any time at most one minute
(60 seconds) after the current time and accepts any time strictly more
than one minute ahead; in particular now+30s is rejected and now+2min
is accepted. -/
theorem validate_reminder_time_spec (now v : Int) :
    ((validate_reminder_time now v).isOk = true ↔ now + 60 < v) ∧
    (validate_reminder_time now (now + 30)).isOk = false ∧
    (validate_reminder_time now (now + 120)).isOk = true := by
  unfold validate_reminder_time
  refine ⟨?_, ?_, ?_⟩
  · split_ifs with h1 h2
    · simp only [Except.isOk, Except.toBool, Bool.false_eq_true, false_iff]
      omega
    · simp only [Except.isOk, Except.toBool, Bool.false_eq_true, false_iff]
      omega
    · simp only [Except.isOk, Except.toBool, eq_self_iff_true, true_iff]
      omega
  · rw [if_neg (by omega : ¬(now + 30 ≤ now)),
      if_pos (by omega : now + 30 ≤ now + 60)]
    rfl
  · rw [if_neg (by omega : ¬(now + 120 ≤ now)),
      if_neg (by omega : ¬(now + 120 ≤ now + 60))]
    rfl

set_option maxRecDepth 10000 in
/-- C7: the reminder text check accepts a text exactly when its
whitespace-separated word count is at most 50; a 50 word text is
accepted and a 51 word text is rejected. -/
theorem validate_reminder_text_spec (v : String) :
    ((validate_reminder_text v).isOk = true ↔ wordCount v ≤ 50) ∧
    (validate_reminder_text fiftyWords).isOk = true ∧
    (validate_reminder_text fiftyOneWords).isOk = false ∧
    wordCount fiftyWords = 50 ∧ wordCount fiftyOneWords = 51 := by
  refine ⟨?_, by decide, by decide, by decide, by decide⟩
  unfold validate_reminder_text
  split_ifs with h
  · simp only [Except.isOk, Except.toBool, Bool.false_eq_true, false_iff]
    omega
  · simp only [Except.isOk, Except.toBool, eq_self_iff_true, true_iff]
    omega

/-- C6: the blood pressure check accepts a string exactly when it
splits on a slash into two digit strings both of positive value;
"120/80" is accepted while "abc/80" and "-5/80" are rejected. -/
theorem validate_blood_pressure_spec (v : String) :
    ((validate_blood_pressure v).isOk = true ↔
      ∃ s d, strSplit '/' v = [s, d] ∧ pyIsDigit s = true ∧
        pyIsDigit d = true ∧ 0 < strToNat s ∧ 0 < strToNat d) ∧
    (validate_blood_pressure ("120/80")).isOk = true ∧
    (validate_blood_pressure ("abc/80")).isOk = false ∧
    (validate_blood_pressure ("-5/80")).isOk = false := by
  refine ⟨⟨fun hok => ?_, fun hyp => ?_⟩, by rfl, by rfl, by rfl⟩
  · unfold validate_blood_pressure at hok
    split at hok
    · next s d hsp =>
      split_ifs at hok with h1 h2
      · exact absurd hok (by decide)
      · exact absurd hok (by decide)
      · push_neg at h1 h2
        exact ⟨s, d, hsp, h1.1, h1.2, h2.1, h2.2⟩
    · next => exact absurd hok (by decide)
  · rcases hyp with ⟨s, d, hsp, h1, h2, h3, h4⟩
    unfold validate_blood_pressure
    split
    · next s2 d2 heq =>
      rw [hsp] at heq
      injection heq with e1 e2
      injection e2 with e2 _
      subst e1; subst e2
      rw [if_neg (by simp [h1, h2]), if_neg (by omega)]
      rfl
    · next hne =>
      exact absurd hsp (hne s d)

/-- C5: the emergency contacts check accepts a list exactly when every
entry splits on a colon into a name and a nonempty digit string;
"John:1234567890" is accepted, "John" is rejected. -/
theorem validate_emergency_contacts_spec (v : List String) :
    ((validate_emergency_contacts v).isOk = true ↔
      ∀ c ∈ v, ∃ nm ph, strSplit ':' c = [nm, ph] ∧ pyIsDigit ph = true) ∧
    (validate_emergency_contacts (["John:1234567890"])).isOk = true ∧
    (validate_emergency_contacts (["John"])).isOk = false := by
  refine ⟨?_, by rfl, by rfl⟩
  unfold validate_emergency_contacts
  split_ifs with h
  · simp only [Except.isOk, Except.toBool, eq_self_iff_true, true_iff]
    intro c hc
    exact (contactOk_iff c).1 ((List.all_eq_true.1 h) c hc)
  · simp only [Except.isOk, Except.toBool, Bool.false_eq_true, false_iff]
    intro hall
    exact h (List.all_eq_true.2 (fun c hc => (contactOk_iff c).2 (hall c hc)))

/-- C4: the GPS check accepts a string exactly when it splits on a
comma into exactly two float-parsable parts with the latitude in
[-90, 90] and the longitude in [-180, 180]; out-of-range or
non-numeric strings are rejected. -/
theorem validate_gps_location_spec (v : String) :
    ((validate_gps_location v).isOk = true ↔
      ∃ a b la lo, strSplit ',' v = [a, b] ∧ pyFloat? a = some la ∧
        pyFloat? b = some lo ∧ -90 ≤ la ∧ la ≤ 90 ∧ -180 ≤ lo ∧ lo ≤ 180) ∧
    (validate_gps_location ("40.712776, -74.005974")).isOk = true ∧
    (validate_gps_location ("91, 0")).isOk = false ∧
    (validate_gps_location ("40.7, -200")).isOk = false ∧
    (validate_gps_location ("abc, 0")).isOk = false := by
  refine ⟨⟨fun hok => ?_, fun hyp => ?_⟩, by rfl, by rfl, by rfl, by rfl⟩
  · unfold validate_gps_location at hok
    split at hok
    · next a b hsp =>
      split at hok
      · next la lo hfa hfb =>
        split_ifs at hok with h1
        · exact absurd hok (by decide)
        · push_neg at h1
          exact ⟨a, b, la, lo, hsp, hfa, hfb,
            h1.1.1, h1.1.2, h1.2.1, h1.2.2⟩
      · next => exact absurd hok (by decide)
    · next => exact absurd hok (by decide)
  · rcases hyp with ⟨a, b, la, lo, hsp, hfa, hfb, g1, g2, g3, g4⟩
    unfold validate_gps_location
    split
    · next a2 b2 heq =>
      rw [hsp] at heq
      injection heq with e1 e2
      injection e2 with e2 _
      subst e1; subst e2
      rw [hfa, hfb]
      split
      · next la2 lo2 ea eb =>
        injection ea with ea
        injection eb with eb
        subst ea; subst eb
        rw [if_neg (by push_neg; exact ⟨⟨g1, g2⟩, ⟨g3, g4⟩⟩)]
        rfl
      · next hnone => exact absurd rfl (hnone la lo rfl)
    · next hne => exact absurd hsp (hne a b)

/-- Helper: a successful Except value is an `ok`. -/
theorem except_ok_of_isOk {α : Type} (e : Except String α)
    (h : e.isOk = true) : ∃ x, e = Except.ok x := by
  cases e with
  | error e => exact absurd h (by simp [Except.isOk, Except.toBool])
  | ok x => exact ⟨x, rfl⟩

/-- Helper: a successful SOS request validation returns the request
unchanged and every field validator succeeded. -/
theorem sos_validate_ok (r s : SOSRequest)
    (h : r.validate = Except.ok s) :
    s = r ∧
    (validate_user_id r.user_id).isOk = true ∧
    (validate_emergency_contacts r.emergency_contacts).isOk = true ∧
    (validate_gps_location r.gps_location).isOk = true ∧
    (r.vital_info.validate).isOk = true := by
  unfold SOSRequest.validate at h
  cases h1 : validate_user_id r.user_id <;> rw [h1] at h <;>
    simp only [Bind.bind, Except.bind] at h
  · exact absurd h (by simp)
  cases h2 : validate_emergency_contacts r.emergency_contacts <;>
    rw [h2] at h <;> simp only [Bind.bind, Except.bind] at h
  · exact absurd h (by simp)
  cases h3 : validate_gps_location r.gps_location <;> rw [h3] at h <;>
    simp only [Bind.bind, Except.bind] at h
  · exact absurd h (by simp)
  cases h4 : r.vital_info.validate <;> rw [h4] at h <;>
    simp only [Bind.bind, Except.bind] at h
  · exact absurd h (by simp)
  injection h with h
  exact ⟨h.symm, rfl, rfl, rfl, rfl⟩

/-- Helper: an SOS request whose field validators all succeed
validates to itself. -/
theorem sos_validate_eq_ok (r : SOSRequest)
    (h1 : (validate_user_id r.user_id).isOk = true)
    (h2 : (validate_emergency_contacts r.emergency_contacts).isOk = true)
    (h3 : (validate_gps_location r.gps_location).isOk = true)
    (h4 : (r.vital_info.validate).isOk = true) :
    r.validate = Except.ok r := by
  obtain ⟨x1, e1⟩ := except_ok_of_isOk _ h1
  obtain ⟨x2, e2⟩ := except_ok_of_isOk _ h2
  obtain ⟨x3, e3⟩ := except_ok_of_isOk _ h3
  obtain ⟨x4, e4⟩ := except_ok_of_isOk _ h4
  unfold SOSRequest.validate
  rw [e1, e2, e3, e4]
  simp only [Bind.bind, Except.bind]

/-- Helper: a successful reminder request validation returns the
request unchanged and every field validator succeeded. -/
theorem rem_validate_ok (now : Int) (r s : ReminderRequest)
    (h : r.validate now = Except.ok s) :
    s = r ∧
    (validate_user_id r.user_id).isOk = true ∧
    (validate_reminder_type r.reminder_type).isOk = true ∧
    (validate_reminder_text r.reminder_text).isOk = true ∧
    (validate_reminder_time now r.reminder_time).isOk = true := by
  unfold ReminderRequest.validate at h
  cases h1 : validate_user_id r.user_id <;> rw [h1] at h <;>
    simp only [Bind.bind, Except.bind] at h
  · exact absurd h (by simp)
  cases h2 : validate_reminder_type r.reminder_type <;> rw [h2] at h <;>
    simp only [Bind.bind, Except.bind] at h
  · exact absurd h (by simp)
  cases h3 : validate_reminder_text r.reminder_text <;> rw [h3] at h <;>
    simp only [Bind.bind, Except.bind] at h
  · exact absurd h (by simp)
  cases h4 : validate_reminder_time now r.reminder_time <;> rw [h4] at h <;>
    simp only [Bind.bind, Except.bind] at h
  · exact absurd h (by simp)
  injection h with h
  exact ⟨h.symm, rfl, rfl, rfl, rfl⟩

/-- Helper: a reminder request whose field validators all succeed
validates to itself. -/
theorem rem_validate_eq_ok (now : Int) (r : ReminderRequest)
    (h1 : (validate_user_id r.user_id).isOk = true)
    (h2 : (validate_reminder_type r.reminder_type).isOk = true)
    (h3 : (validate_reminder_text r.reminder_text).isOk = true)
    (h4 : (validate_reminder_time now r.reminder_time).isOk = true) :
    r.validate now = Except.ok r := by
  obtain ⟨x1, e1⟩ := except_ok_of_isOk _ h1
  obtain ⟨x2, e2⟩ := except_ok_of_isOk _ h2
  obtain ⟨x3, e3⟩ := except_ok_of_isOk _ h3
  obtain ⟨x4, e4⟩ := except_ok_of_isOk _ h4
  unfold ReminderRequest.validate
  rw [e1, e2, e3, e4]
  simp only [Bind.bind, Except.bind]

/-- Helper: mapM over a list on which the function succeeds pointwise
collects the mapped results. -/
theorem mapM_ok {α β : Type} (f : α → Except String β) (g : α → β)
    (l : List α) (h : ∀ x ∈ l, f x = Except.ok (g x)) :
    l.mapM f = Except.ok (l.map g) := by
  induction l with
  | nil => rfl
  | cons x xs ih =>
    rw [List.mapM_cons, h x (by simp), ih (fun y hy => h y (by simp [hy]))]
    simp only [Bind.bind, Except.bind, Pure.pure, Except.pure, List.map_cons]

/-- Helper: the notification loop over contacts that all split into at
least two colon parts makes one attempt per contact, in order, with
the outcome given by the network oracle, and never crashes. -/
theorem sendLoop_spec (net : String → String → Bool) (msg : String)
    (cs : List String) (h : ∀ c ∈ cs, 2 ≤ (strSplit ':' c).length) :
    sendLoop net msg cs =
      (cs.map (fun c => (c, net ((strSplit ':' c).getD 1 "") msg)),
       false) := by
  induction cs with
  | nil => rfl
  | cons c rest ih =>
    have hc := h c (by simp)
    unfold sendLoop
    cases hg : (strSplit ':' c).get? 1 with
    | none =>
      rw [List.get?_eq_none] at hg
      omega
    | some p =>
      have hpe : (strSplit ':' c)[1]? = some p := by
        rw [← List.get?_eq_getElem?]
        exact hg
      rw [ih (fun y hy => h y (by simp [hy]))]
      simp [List.getD, hpe]

/-- Helper: a well-formed contact splits into at least two parts. -/
theorem contactOk_len (c : String) (h : contactOk c = true) :
    2 ≤ (strSplit ':' c).length := by
  unfold contactOk at h
  rw [Bool.and_eq_true] at h
  have := h.1
  simp only [decide_eq_true_eq] at this
  omega

/-- Helper: a successfully validated contact list consists of
well-formed contacts. -/
theorem emergency_contacts_all_ok (v : List String)
    (h : (validate_emergency_contacts v).isOk = true) :
    ∀ c ∈ v, contactOk c = true := by
  unfold validate_emergency_contacts at h
  split_ifs at h with hall
  · exact fun c hc => List.all_eq_true.1 hall c hc
  · exact absurd h (by decide)

/-- Helper: on an alert whose contacts are all well-formed, the
dispatcher makes exactly one attempt per contact, in list order, and
does not crash. -/
theorem send_sos_alert_ok (net : String → String → Bool) (a : SOSAlert)
    (h : ∀ c ∈ a.emergency_contacts, contactOk c = true) :
    send_sos_alert net a =
      (a.emergency_contacts.map
        (fun c => (c, net ((strSplit ':' c).getD 1 "") (sosMessage a))),
       false) :=
  sendLoop_spec net (sosMessage a) a.emergency_contacts
    (fun c hc => contactOk_len c (h c hc))

/-- C2: for a persisted (hence validated) SOS alert the dispatcher
attempts exactly one outbound message per contact in list order; the
outcome for each contact is given only by the network oracle at that
contact, so one failed call does not prevent the remaining attempts;
and the POST /sos/ request succeeds whatever the network outcomes. -/
theorem send_sos_per_contact :
    (∀ (net : String → String → Bool) (a : SOSAlert),
       (∀ c ∈ a.emergency_contacts, contactOk c = true) →
       send_sos_alert net a =
         (a.emergency_contacts.map
           (fun c => (c, net ((strSplit ':' c).getD 1 "") (sosMessage a))),
          false)) ∧
    (∀ (net : String → String → Bool) (sos : SOSRequest)
       (db : List SOSAlert),
       (SOSRequest.validate sos).isOk = true →
       (create_sos_alert net sos db).isOk = true) := by
  constructor
  · exact send_sos_alert_ok
  · intro net sos db h
    obtain ⟨s, hs⟩ := except_ok_of_isOk _ h
    obtain ⟨hsr, h1, h2, h3, h4⟩ := sos_validate_ok sos s hs
    subst hsr
    unfold create_sos_alert
    rw [hs]
    simp only [Bind.bind, Except.bind]
    rw [send_sos_alert_ok net _
      (fun c hc => emergency_contacts_all_ok _ h2 c hc)]
    simp [Except.isOk, Except.toBool]

/-- C2 witness: with a network oracle that fails the call to Alice
(phone 111) and succeeds for Bob (phone 222), both attempts are made
in order, Alice's failure does not prevent Bob's attempt, and the
POST /sos/ request still succeeds. -/
theorem send_sos_per_contact_witness :
    (create_sos_alert netW sampleSOS []).isOk = true ∧
    send_sos_alert netW sampleAlert =
      ([("Alice:111", false), ("Bob:222", true)], false) := by
  constructor
  · exact send_sos_per_contact.2 netW sampleSOS [] (by rfl)
  · rw [send_sos_per_contact.1 netW sampleAlert (by decide)]
    rfl

/-- C1: a valid creation payload round-trips through storage unchanged
except for the assigned id: the row appended by POST /sos/ or
POST /reminders/ carries exactly the request fields (the reminder time
through the exact ISO codec), and serializing the stored row back
through the response model returns precisely the submitted request. -/
theorem create_round_trip :
    (∀ (net : String → String → Bool) (sos : SOSRequest)
       (db db2 : List SOSAlert) (alert : SOSAlert)
       (att : List (String × Bool)),
       create_sos_alert net sos db = Except.ok (db2, alert, att) →
       db2 = db ++ [alert] ∧
       alert.user_id = sos.user_id ∧
       alert.emergency_button_pressed = sos.emergency_button_pressed ∧
       alert.emergency_contacts = sos.emergency_contacts ∧
       alert.gps_location = sos.gps_location ∧
       alert.vital_info = sos.vital_info ∧
       rowToSOSRequest alert = Except.ok sos) ∧
    (∀ (now : Int) (rem : ReminderRequest) (db db2 : List Reminder)
       (inst : Reminder),
       create_reminder now rem db = Except.ok (db2, inst) →
       db2 = db ++ [inst] ∧
       inst.user_id = rem.user_id ∧
       inst.reminder_type = rem.reminder_type ∧
       inst.reminder_text = rem.reminder_text ∧
       parseIso inst.reminder_time = some rem.reminder_time ∧
       rowToReminderRequest now inst = Except.ok rem) := by
  constructor
  · intro net sos db db2 alert att h
    unfold create_sos_alert at h
    cases hv : sos.validate <;> rw [hv] at h <;>
      simp only [Bind.bind, Except.bind] at h
    · exact absurd h (by simp)
    next s =>
    obtain ⟨hsr, h1, h2, h3, h4⟩ := sos_validate_ok sos s hv
    subst hsr
    rw [send_sos_alert_ok net _
      (fun c hc => emergency_contacts_all_ok _ h2 c hc)] at h
    simp only [Bool.false_eq_true, if_false] at h
    injection h with h
    rw [Prod.mk.injEq, Prod.mk.injEq] at h
    obtain ⟨e1, e2, e3⟩ := h
    subst e1
    subst e2
    subst e3
    refine ⟨rfl, rfl, rfl, rfl, rfl, rfl, ?_⟩
    show SOSRequest.validate s = Except.ok s
    exact hv
  · intro now rem db db2 inst h
    unfold create_reminder at h
    cases hv : rem.validate now <;> rw [hv] at h <;>
      simp only [Bind.bind, Except.bind] at h
    · exact absurd h (by simp)
    next r =>
    obtain ⟨hsr, h1, h2, h3, h4⟩ := rem_validate_ok now rem r hv
    subst hsr
    injection h with h
    rw [Prod.mk.injEq] at h
    obtain ⟨e1, e2⟩ := h
    subst e1
    subst e2
    refine ⟨rfl, rfl, rfl, rfl, parseIso_isoformat _, ?_⟩
    unfold rowToReminderRequest
    rw [parseIso_isoformat]
    show ReminderRequest.validate now r = Except.ok r
    exact hv

/-- C1 witness: the sample SOS request and the sample reminder request
read back from their stored rows exactly as submitted. -/
theorem create_round_trip_witness :
    rowToSOSRequest sampleAlert = Except.ok sampleSOS ∧
    rowToReminderRequest 0 sampleStoredRem = Except.ok sampleRem := by
  constructor
  · exact (create_round_trip.1 netW sampleSOS [] [sampleAlert] sampleAlert
      [("Alice:111", false), ("Bob:222", true)] (by rfl)).2.2.2.2.2.2
  · exact (create_round_trip.2 0 sampleRem [] [sampleStoredRem]
      sampleStoredRem (by rfl)).2.2.2.2.2

/-- Helper: a row that serializes successfully through the SOS
response model yields exactly its id-free field projection. -/
theorem rowToSOSRequest_ok (a : SOSAlert)
    (h : (rowToSOSRequest a).isOk = true) :
    rowToSOSRequest a = Except.ok a.toRequest := by
  obtain ⟨x, hx⟩ := except_ok_of_isOk _ h
  obtain ⟨hxr, _⟩ := sos_validate_ok _ x hx
  rw [hx, hxr]

/-- Helper: a row that serializes successfully through the reminder
response model yields exactly its id-free field projection. -/
theorem rowToReminderRequest_ok (now : Int) (r : Reminder)
    (h : (rowToReminderRequest now r).isOk = true) :
    rowToReminderRequest now r = Except.ok r.toRequest := by
  unfold rowToReminderRequest at h ⊢
  cases hp : parseIso r.reminder_time with
  | none =>
    rw [hp] at h
    have h2 : (Except.error "invalid datetime format" :
        Except String ReminderRequest).isOk = true := h
    exact absurd h2 (by decide)
  | some t =>
    rw [hp] at h
    have h2 : (ReminderRequest.validate now
        { user_id := r.user_id, reminder_type := r.reminder_type,
          reminder_text := r.reminder_text, reminder_time := t }).isOk =
        true := h
    obtain ⟨x, hx⟩ := except_ok_of_isOk _ h2
    obtain ⟨hxr, _⟩ := rem_validate_ok now _ x hx
    show ReminderRequest.validate now
        { user_id := r.user_id, reminder_type := r.reminder_type,
          reminder_text := r.reminder_text, reminder_time := t } =
      Except.ok r.toRequest
    rw [hx, hxr]
    unfold Reminder.toRequest
    rw [hp]
    rfl

/-- Helper: a successful mapM succeeded on every element. -/
theorem mapM_isOk {α β : Type} (f : α → Except String β) (l : List α)
    (res : List β) (h : l.mapM f = Except.ok res) :
    ∀ x ∈ l, (f x).isOk = true := by
  induction l generalizing res with
  | nil => intro x hx; exact absurd hx (by simp)
  | cons y ys ih =>
    rw [List.mapM_cons] at h
    intro x hx
    cases hf : f y with
    | error e =>
      rw [hf] at h
      simp only [Bind.bind, Except.bind] at h
      exact absurd h (by simp)
    | ok b =>
      rw [hf] at h
      simp only [Bind.bind, Except.bind] at h
      cases hr : ys.mapM f with
      | error e =>
        rw [hr] at h
        simp only [Except.bind] at h
        exact absurd h (by simp)
      | ok bs =>
        rcases List.mem_cons.1 hx with rfl | hx2
        · rw [hf]; rfl
        · exact ih bs hr x hx2

/-- Helper: a time accepted by the reminder time validator is strictly
more than one minute ahead of the clock. -/
theorem validate_reminder_time_ok (now t : Int)
    (h : (validate_reminder_time now t).isOk = true) : now + 60 < t := by
  unfold validate_reminder_time at h
  split_ifs at h with h1 h2
  · exact absurd h (by decide)
  · exact absurd h (by decide)
  · omega

/-- C8 (amended): the list endpoints return the stored rows in
insertion order with the first `skip` rows dropped and at most `limit`
rows returned, provided every selected row still serializes through
the response model at read time (for reminders: its stored time is
still strictly more than one minute in the future); without that
proviso the read fails instead, see the counterexample. -/
theorem read_pagination :
    (∀ (skip limit : Nat) (db : List SOSAlert),
       (∀ a ∈ (db.drop skip).take limit, (rowToSOSRequest a).isOk = true) →
       read_sos_alerts skip limit db =
         Except.ok (((db.drop skip).take limit).map SOSAlert.toRequest)) ∧
    (∀ (now : Int) (skip limit : Nat) (db : List Reminder),
       (∀ r ∈ (db.drop skip).take limit,
          (rowToReminderRequest now r).isOk = true) →
       read_reminders now skip limit db =
         Except.ok (((db.drop skip).take limit).map Reminder.toRequest)) := by
  constructor
  · intro skip limit db h
    exact mapM_ok _ _ _ (fun a ha => rowToSOSRequest_ok a (h a ha))
  · intro now skip limit db h
    exact mapM_ok _ _ _ (fun r hr => rowToReminderRequest_ok now r (h r hr))

/-- C8 counterexample: with one stored reminder whose time (100) has
passed by read time 200, GET /reminders/ does not return the stored
rows: the read fails. -/
theorem read_pagination_counterexample :
    (read_reminders 200 0 10 [expiredRem]).isOk = false := by decide

set_option maxRecDepth 10000 in
/-- C8 witness: skip 0 and limit 10 on 15 stored future reminders
returns exactly the first 10 rows in insertion order. -/
theorem read_pagination_witness :
    read_reminders 0 0 10 db15 =
      Except.ok (((db15.drop 0).take 10).map Reminder.toRequest) ∧
    ((db15.drop 0).take 10).length = 10 :=
  ⟨read_pagination.2 0 0 10 db15 (by decide), by decide⟩

/-- C9: GET /reminders/ re-runs the reminder validators against the
clock at read time, so a successful read implies that every selected
row's stored time is still strictly more than one minute in the
future; a stored reminder whose time (400) has passed by read time 500
makes the read fail instead of returning the row. -/
theorem read_reminders_revalidates :
    (∀ (now : Int) (skip limit : Nat) (db : List Reminder)
       (l : List ReminderRequest),
       read_reminders now skip limit db = Except.ok l →
       ∀ r ∈ (db.drop skip).take limit, ∀ t,
         parseIso r.reminder_time = some t → now + 60 < t) ∧
    (read_reminders 500 0 10 [lateRem]).isOk = false := by
  constructor
  · intro now skip limit db l h r hr t ht
    have hok := mapM_isOk _ _ _ h r hr
    unfold rowToReminderRequest at hok
    rw [ht] at hok
    have h2 : (ReminderRequest.validate now
        { user_id := r.user_id, reminder_type := r.reminder_type,
          reminder_text := r.reminder_text, reminder_time := t }).isOk =
        true := hok
    obtain ⟨x, hx⟩ := except_ok_of_isOk _ h2
    obtain ⟨_, _, _, _, h4⟩ := rem_validate_ok now _ x hx
    exact validate_reminder_time_ok now t h4
  · decide

/-- C9 witness: reading the sample stored reminder (time 120) at read
time 0 succeeds, and by the theorem its time is strictly more than one
minute ahead of the read clock. -/
theorem read_reminders_revalidates_witness :
    read_reminders 0 0 10 [sampleStoredRem] = Except.ok [sampleRem] ∧
    ((0 : Int) + 60 < 120) :=
  ⟨by rfl,
   read_reminders_revalidates.1 0 0 10 [sampleStoredRem] [sampleRem]
     (by rfl) sampleStoredRem (by decide) 120 (by decide)⟩

/-- C10: the list endpoints shape rows through the id-free request
models, so the listed representation of any stored entity is invariant
under its system-assigned identifier: rows differing only in id
serialize identically. -/
theorem responses_exclude_id (a : SOSAlert) (r : Reminder)
    (i j now : Int) :
    ({ a with id := i } : SOSAlert).toRequest =
      ({ a with id := j } : SOSAlert).toRequest ∧
    rowToSOSRequest { a with id := i } =
      rowToSOSRequest { a with id := j } ∧
    ({ r with id := i } : Reminder).toRequest =
      ({ r with id := j } : Reminder).toRequest ∧
    rowToReminderRequest now { r with id := i } =
      rowToReminderRequest now { r with id := j } :=
  ⟨rfl, rfl, rfl, rfl⟩

end PersonEngagement
